import Mathlib

/-!
Verification of `scripts/get_keycloak_device_token.py`, a command-line
client for the OAuth 2.0 Device Authorization Grant against Keycloak.

The script is embedded shallowly: the JSON values the script manipulates
become an inductive type, Python truthiness / `or` / `str()` / `int()` /
`json.dumps(_, indent=2)` become Lean functions, and the script itself
becomes a pure function from its inputs (environment, `--json` flag, the
sequence of HTTP response bodies, and the sequence of `time.time()`
readings) to the trace of observable events (stdout prints, stderr
prints, HTTP requests, sleeps, operator prompts) together with an
outcome (a process exit code, a crash by uncaught exception, or `stuck`
when execution runs past the supplied response/clock oracle).

Modelling notes:
* JSON numbers are modelled as integers (both endpoints of this flow
  return integer-valued numeric fields); valid JSON response bodies are
  modelled as top-level objects, the shape both endpoints return.
* Clock readings are modelled as integers (whole seconds).
* Python's `repr` of a string keeps printable non-ASCII characters
  as-is; the Unicode printability table is approximated by treating all
  characters above U+001F other than U+007F as printable.
-/

namespace DeviceToken

/-- A JSON value as produced by `json.loads` (numbers restricted to
integers, which is what the Keycloak endpoints return here). -/
inductive JsonVal where
  | null
  | bool (b : Bool)
  | num (n : Int)
  | str (s : String)
  | arr (elems : List JsonVal)
  | obj (fields : List (String × JsonVal))

/-- A parsed JSON response object: what `json.loads` returns for the
response bodies of both endpoints. -/
abbrev JsonObj := List (String × JsonVal)

/-- Python truthiness of the result of `dict.get`: `None` (absent key or
JSON `null`) is falsy, as are `0`, `""`, `[]` and `{}`. -/
def truthy : Option JsonVal → Bool
  | none => false
  | some .null => false
  | some (.bool b) => b
  | some (.num n) => n != 0
  | some (.str s) => s != ""
  | some (.arr xs) => !xs.isEmpty
  | some (.obj fs) => !fs.isEmpty

/-- Python `x or y` on two `dict.get` results: yields `x` when `x` is
truthy, otherwise `y` (whatever `y`'s truthiness). -/
def pyOr (x y : Option JsonVal) : Option JsonVal :=
  if truthy x then x else y

/-- Two lowercase hex digits of `n % 256`. -/
def hex2 (n : Nat) : String :=
  String.mk [Nat.digitChar (n / 16 % 16), Nat.digitChar (n % 16)]

/-- Four lowercase hex digits of `n % 65536`. -/
def hex4 (n : Nat) : String :=
  String.mk [Nat.digitChar (n / 4096 % 16), Nat.digitChar (n / 256 % 16),
    Nat.digitChar (n / 16 % 16), Nat.digitChar (n % 16)]

/-- Escaping of one character inside a Python string `repr`, given the
code point of the chosen quote character. -/
def pyReprEscape (quote : Nat) (c : Char) : String :=
  if c.toNat = 92 then "\\\\"
  else if c.toNat = quote then "\\" ++ String.mk [Char.ofNat quote]
  else if c = '\n' then "\\n"
  else if c = '\r' then "\\r"
  else if c = '\t' then "\\t"
  else if c.toNat < 32 || c.toNat = 127 then "\\x" ++ hex2 c.toNat
  else String.mk [c]

/-- Python `repr` of a string: single-quoted unless the string contains
a single quote and no double quote. -/
def pyReprStr (s : String) : String :=
  let quote : Nat :=
    if s.data.contains (Char.ofNat 39) && !s.data.contains (Char.ofNat 34)
    then 34 else 39
  String.mk [Char.ofNat quote]
    ++ String.join (s.data.map (pyReprEscape quote))
    ++ String.mk [Char.ofNat quote]

mutual

/-- Python `repr` of a JSON-decoded value. -/
def pyRepr : JsonVal → String
  | .null => "None"
  | .bool true => "True"
  | .bool false => "False"
  | .num n => toString n
  | .str s => pyReprStr s
  | .arr xs => "[" ++ String.intercalate ", " (pyReprList xs) ++ "]"
  | .obj fs => "\x7b" ++ String.intercalate ", " (pyReprFields fs) ++ "\x7d"

/-- Python `repr` of the elements of a JSON array. -/
def pyReprList : List JsonVal → List String
  | [] => []
  | x :: xs => pyRepr x :: pyReprList xs

/-- Python `repr` of the entries of a JSON object. -/
def pyReprFields : List (String × JsonVal) → List String
  | [] => []
  | (k, v) :: fs => (pyReprStr k ++ ": " ++ pyRepr v) :: pyReprFields fs

end

/-- Python `str()` of a JSON-decoded value (as rendered by `print` and
by f-string interpolation). -/
def pyStrVal : JsonVal → String
  | .null => "None"
  | .bool true => "True"
  | .bool false => "False"
  | .num n => toString n
  | .str s => s
  | .arr xs => pyRepr (.arr xs)
  | .obj fs => pyRepr (.obj fs)

/-- Python `str()` of a `dict.get` result (`None` for an absent key). -/
def pyStr : Option JsonVal → String
  | none => "None"
  | some v => pyStrVal v

/-- Digit run of a Python integer literal string after the first digit:
single underscores are allowed between digits only. -/
def pyDigitsGo (acc : Nat) : List Char → Option Nat
  | [] => some acc
  | c :: cs =>
    if c.isDigit then pyDigitsGo (acc * 10 + (c.toNat - 48)) cs
    else if c = '_' then
      match cs with
      | [] => none
      | c2 :: cs2 =>
        if c2.isDigit then pyDigitsGo (acc * 10 + (c2.toNat - 48)) cs2 else none
    else none

/-- Unsigned part of Python `int(str)`: must start with a digit. -/
def pyUnsigned : List Char → Option Nat
  | [] => none
  | c :: cs => if c.isDigit then pyDigitsGo (c.toNat - 48) cs else none

/-- Python `int()` applied to a string: strip whitespace, optional
sign, then digits (ASCII digits modelled). `none` models a raised
`ValueError`. -/
def pyIntOfStr (s : String) : Option Int :=
  let t := ((s.data.dropWhile Char.isWhitespace).reverse.dropWhile
    Char.isWhitespace).reverse
  match t with
  | '-' :: rest => (pyUnsigned rest).map (fun n => -(n : Int))
  | '+' :: rest => (pyUnsigned rest).map (fun n => (n : Int))
  | rest => (pyUnsigned rest).map (fun n => (n : Int))

/-- Python `int()` applied to a JSON-decoded value; `none` models a
raised `TypeError`/`ValueError` (e.g. `int(None)`). -/
def pyInt : JsonVal → Option Int
  | .num n => some n
  | .bool b => some (if b then 1 else 0)
  | .str s => pyIntOfStr s
  | _ => none

/-- Models `int(resp.get(key, default))`: the default is used only when the key
is absent; a present value goes through `int()`, which may raise. -/
def pyIntD (v : Option JsonVal) (d : Int) : Option Int :=
  match v with
  | none => some d
  | some j => pyInt j

/-- Escaping of one character by `json.dumps` (default
`ensure_ascii=True`): control characters and all non-ASCII characters
are escaped, astral code points as surrogate pairs. -/
def jsonEscapeChar (c : Char) : String :=
  if c.toNat = 34 then "\\\""
  else if c.toNat = 92 then "\\\\"
  else if c = '\n' then "\\n"
  else if c = '\r' then "\\r"
  else if c = '\t' then "\\t"
  else if c.toNat = 8 then "\\b"
  else if c.toNat = 12 then "\\f"
  else if c.toNat < 32 then "\\u" ++ hex4 c.toNat
  else if c.toNat < 128 then String.mk [c]
  else if c.toNat < 65536 then "\\u" ++ hex4 c.toNat
  else
    "\\u" ++ hex4 (55296 + (c.toNat - 65536) / 1024)
      ++ "\\u" ++ hex4 (56320 + (c.toNat - 65536) % 1024)

/-- A JSON string literal as emitted by `json.dumps`. -/
def jsonQuote (s : String) : String :=
  "\"" ++ String.join (s.data.map jsonEscapeChar) ++ "\""

/-- Indentation of `n` spaces. -/
def jsonInd (n : Nat) : String := String.mk (List.replicate n ' ')

mutual

/-- Output of `json.dumps(v, indent=2)` at nesting depth `d` (item separator
`,` + newline + indent, key separator `: `, empty containers inline). -/
def dumpsAt : JsonVal → Nat → String
  | .null, _ => "null"
  | .bool true, _ => "true"
  | .bool false, _ => "false"
  | .num n, _ => toString n
  | .str s, _ => jsonQuote s
  | .arr [], _ => "[]"
  | .arr (x :: xs), d =>
    "[\n" ++ jsonInd (2 * (d + 1)) ++ dumpsItems (x :: xs) (d + 1)
      ++ "\n" ++ jsonInd (2 * d) ++ "]"
  | .obj [], _ => "\x7b\x7d"
  | .obj (f :: fs), d =>
    "\x7b\n" ++ jsonInd (2 * (d + 1)) ++ dumpsFields (f :: fs) (d + 1)
      ++ "\n" ++ jsonInd (2 * d) ++ "\x7d"

/-- Comma-separated dump of array elements at depth `d`. -/
def dumpsItems : List JsonVal → Nat → String
  | [], _ => ""
  | [x], d => dumpsAt x d
  | x :: y :: xs, d =>
    dumpsAt x d ++ ",\n" ++ jsonInd (2 * d) ++ dumpsItems (y :: xs) d

/-- Comma-separated dump of object entries at depth `d`. -/
def dumpsFields : List (String × JsonVal) → Nat → String
  | [], _ => ""
  | [(k, v)], d => jsonQuote k ++ ": " ++ dumpsAt v d
  | (k, v) :: f :: fs, d =>
    jsonQuote k ++ ": " ++ dumpsAt v d ++ ",\n" ++ jsonInd (2 * d)
      ++ dumpsFields (f :: fs) d

end

/-- Output of `json.dumps(v, indent=2)`. -/
def dumps (v : JsonVal) : String := dumpsAt v 0

/-- Observable actions of the script, in program order. -/
inductive Event where
  /-- Models `print(s)` to stdout. -/
  | out (s : String)
  /-- Models `print(s, file=sys.stderr)`. -/
  | err (s : String)
  /-- An HTTP POST issued by `post_form`: the target URL and the form
  fields (values rendered through `str()` as `urllib.parse.urlencode`
  does). -/
  | request (url : String) (data : List (String × String))
  /-- Models `time.sleep(seconds)`. -/
  | sleep (seconds : Int)
  /-- Models `input(prompt)`: prompt written to stdout, one line read. -/
  | input (prompt : String)
  deriving DecidableEq, Repr

/-- How a run ends: a process exit status (`sys.exit` / the value
returned from `main`), a crash by uncaught exception (the interpreter
prints a traceback and exits nonzero, but none of the script's own
output is produced), or `stuck` when execution needs more responses or
clock readings than the supplied oracle contains. -/
inductive Outcome where
  | exit (code : Nat)
  | crash
  | stuck
  deriving DecidableEq, Repr

/-- One HTTP response body, as seen by `post_form`: either a body that
`json.loads` parses (modelled as a top-level JSON object, the shape the
Keycloak endpoints return) or a non-JSON body. -/
inductive RawResp where
  | json (fields : JsonObj)
  | nonJson (body : String)

/-- Whether an event is an HTTP request. -/
def Event.isRequest : Event → Bool
  | .request _ _ => true
  | _ => false

/-- Number of HTTP requests in a trace. -/
def countRequests (evs : List Event) : Nat :=
  evs.countP Event.isRequest

/-- The script's inputs: environment variables, the `--json` flag, the
successive HTTP response bodies, and the successive `time.time()`
readings. -/
structure Input where
  env : List (String × String)
  jsonFlag : Bool
  resps : List RawResp
  clock : List Int

/-- Embeds `require_env` (lines 11-16): exit 1 with a message on stderr when
the variable is absent or empty (Python truthiness of the string). -/
def require_env (env : List (String × String)) (name : String) :
    List Event × Option String :=
  match env.lookup name with
  | none => ([.err (name ++ " is required")], none)
  | some v =>
    if v = "" then ([.err (name ++ " is required")], none) else ([], some v)

/-- Embeds `post_form` (lines 19-34): POST the form, then parse the body as
JSON; on a non-JSON body print `Non-JSON response:` and the raw body to
stdout and `sys.exit(1)`. The next oracle response plays the role of the
network; `none` means the oracle is exhausted (the run is `stuck`). -/
def post_form (url : String) (data : List (String × String))
    (resp : Option RawResp) : List Event × Except Outcome JsonObj :=
  match resp with
  | none => ([.request url data], .error .stuck)
  | some (.json fields) => ([.request url data], .ok fields)
  | some (.nonJson body) =>
    ([.request url data, .out "Non-JSON response:", .out body],
      .error (.exit 1))

/-- Python `s.rstrip('/')`: remove every trailing `/`. -/
def rstripSlash (s : String) : String :=
  String.mk ((s.data.reverse.dropWhile (fun c => c = '/')).reverse)

/-- The device-authorization endpoint URL (line 50). -/
def device_endpoint_of (keycloak_url realm : String) : String :=
  rstripSlash keycloak_url ++ "/realms/" ++ realm
    ++ "/protocol/openid-connect/auth/device"

/-- The token endpoint URL (line 51). -/
def token_endpoint_of (keycloak_url realm : String) : String :=
  rstripSlash keycloak_url ++ "/realms/" ++ realm
    ++ "/protocol/openid-connect/token"

/-- Whether a token-poll `error` value is one of the two transient
device-flow errors (line 105: `err in ("authorization_pending",
"slow_down")`; true only for exactly those strings). -/
def isTransient : JsonVal → Bool
  | .str s => s == "authorization_pending" || s == "slow_down"
  | _ => false

/-- The poll loop (lines 87-119), with `start` already read. Each
iteration reads the clock, declares expiration when
`now - start >= expires_in`, otherwise posts the token-exchange form
and handles the response. -/
def pollLoop (token_endpoint : String) (form : List (String × String))
    (jsonFlag : Bool) (interval expires_in start : Int) :
    List Int → List RawResp → List Event × Outcome
  | [], _ => ([], .stuck)
  | now :: clock, resps =>
    if now - start ≥ expires_in then
      ([.err "Device code expired. Run the script again."], .exit 1)
    else
      let pf := post_form token_endpoint form resps.head?
      match pf.2 with
      | .error out => (pf.1, out)
      | .ok token_resp =>
        match token_resp.lookup "error" with
        | some errv =>
          if isTransient errv then
            let r := pollLoop token_endpoint form jsonFlag interval
              expires_in start clock resps.tail
            (pf.1 ++ .sleep interval :: r.1, r.2)
          else
            (pf.1 ++ [.err (pyStr (pyOr (token_resp.lookup "error_description")
              (some errv)))], .exit 1)
        | none =>
          if jsonFlag then
            (pf.1 ++ [.out (dumps (.obj token_resp))], .exit 0)
          else
            let access_token := token_resp.lookup "access_token"
            if truthy access_token then
              (pf.1 ++ [.out (pyStr access_token)], .exit 0)
            else
              (pf.1 ++ [.err "No access_token returned"], .exit 1)

/-- Lines 62-119: handling of the initiation response and everything
after it. Field extraction and the `int()` conversions (lines 66-72)
happen before the completeness check (line 74); a failed conversion is
an uncaught exception. -/
def after_init (client_id client_secret token_endpoint : String)
    (jsonFlag : Bool) (init_resp : JsonObj) (resps : List RawResp)
    (clock : List Int) : List Event × Outcome :=
  if (init_resp.lookup "error").isSome then
    ([.err (pyStr (pyOr (init_resp.lookup "error_description")
      (init_resp.lookup "error")))], .exit 1)
  else
    let device_code := init_resp.lookup "device_code"
    let user_code := init_resp.lookup "user_code"
    let verification_uri := pyOr (init_resp.lookup "verification_uri")
      (init_resp.lookup "verification_uri_complete")
    match pyIntD (init_resp.lookup "interval") 5,
        pyIntD (init_resp.lookup "expires_in") 600 with
    | some interval, some expires_in =>
      if !truthy device_code || !truthy user_code || !truthy verification_uri
      then
        ([.err "Missing device_code/user_code/verification_uri",
          .out (dumps (.obj init_resp))], .exit 1)
      else
        let pre : List Event :=
          [.out "\nOpen the following URL and enter the code:",
            .out ("  " ++ pyStr verification_uri),
            .out "Code:",
            .out ("  " ++ pyStr user_code),
            .out ("\nDevice code expires in " ++ toString expires_in ++ "s"),
            .input "\nPress ENTER after completing login in the browser..."]
        match clock with
        | [] => (pre, .stuck)
        | start :: clock =>
          let r := pollLoop token_endpoint
            [("grant_type", "urn:ietf:params:oauth:grant-type:device_code"),
              ("device_code", pyStr device_code),
              ("client_id", client_id),
              ("client_secret", client_secret)]
            jsonFlag interval expires_in start clock resps
          (pre ++ r.1, r.2)
    | _, _ => ([], .crash)

/-- Lines 53-119: the initiation POST followed by `after_init`. -/
def device_flow (client_id client_secret scope device_endpoint
    token_endpoint : String) (jsonFlag : Bool) (resps : List RawResp)
    (clock : List Int) : List Event × Outcome :=
  let pf := post_form device_endpoint
    [("client_id", client_id), ("client_secret", client_secret),
      ("scope", scope)] resps.head?
  match pf.2 with
  | .error out => (pf.1, out)
  | .ok init_resp =>
    let r := after_init client_id client_secret token_endpoint jsonFlag
      init_resp resps.tail clock
    (pf.1 ++ r.1, r.2)

/-- Embeds `main` (lines 37-119): read the four required environment
variables in order, default the scope, build the endpoints, then run
the device flow. -/
def main (inp : Input) : List Event × Outcome :=
  match require_env inp.env "KEYCLOAK_URL" with
  | (evs, none) => (evs, .exit 1)
  | (_, some keycloak_url) =>
    match require_env inp.env "REALM" with
    | (evs, none) => (evs, .exit 1)
    | (_, some realm) =>
      match require_env inp.env "CLIENT_ID" with
      | (evs, none) => (evs, .exit 1)
      | (_, some client_id) =>
        match require_env inp.env "CLIENT_SECRET" with
        | (evs, none) => (evs, .exit 1)
        | (_, some client_secret) =>
          let scope := (inp.env.lookup "SCOPE").getD
            "openid email profile groups"
          device_flow client_id client_secret scope
            (device_endpoint_of keycloak_url realm)
            (token_endpoint_of keycloak_url realm)
            inp.jsonFlag inp.resps inp.clock

/-! ### Fixed example configuration used by whole-program statements -/

/-- A well-formed environment (no `SCOPE`, so the default applies). -/
def stdEnv : List (String × String) :=
  [("KEYCLOAK_URL", "https://kc.example"), ("REALM", "master"),
    ("CLIENT_ID", "cli"), ("CLIENT_SECRET", "sec")]

/-- The device-authorization endpoint for `stdEnv`. -/
def stdDevEp : String := device_endpoint_of "https://kc.example" "master"

/-- The token endpoint for `stdEnv`. -/
def stdTokEp : String := token_endpoint_of "https://kc.example" "master"

/-- The initiation form sent under `stdEnv`. -/
def stdInitForm : List (String × String) :=
  [("client_id", "cli"), ("client_secret", "sec"),
    ("scope", "openid email profile groups")]

/-- The token-exchange form sent under `stdEnv` for an initiation
response `obj`. -/
def stdPollForm (obj : JsonObj) : List (String × String) :=
  [("grant_type", "urn:ietf:params:oauth:grant-type:device_code"),
    ("device_code", pyStr (obj.lookup "device_code")),
    ("client_id", "cli"), ("client_secret", "sec")]

/-- An environment variable is missing in the sense of `require_env`:
absent or present with the empty string. -/
def envMissing (env : List (String × String)) (name : String) : Prop :=
  env.lookup name = none ∨ env.lookup name = some ""

/-- The four required environment variables, in the order checked. -/
def requiredVars : List String :=
  ["KEYCLOAK_URL", "REALM", "CLIENT_ID", "CLIENT_SECRET"]

/-! ### Helper lemmas -/

/-- The helper `post_form` always records the request first, whatever the
response. -/
theorem post_form_head (url : String) (data : List (String × String))
    (resp : Option RawResp) :
    ∃ t r, post_form url data resp = (.request url data :: t, r) := by
  match resp with
  | none => exact ⟨[], .error .stuck, rfl⟩
  | some (.json fields) => exact ⟨[], .ok fields, rfl⟩
  | some (.nonJson body) =>
    exact ⟨[.out "Non-JSON response:", .out body], .error (.exit 1), rfl⟩

/-- Under `stdEnv`, configuration succeeds and `main` is the device
flow with the default scope and the two endpoint URLs. -/
theorem main_stdEnv (jsonFlag : Bool) (resps : List RawResp)
    (clock : List Int) :
    main ⟨stdEnv, jsonFlag, resps, clock⟩
      = device_flow "cli" "sec" "openid email profile groups"
          stdDevEp stdTokEp jsonFlag resps clock := rfl

/-! ### C1 -/

/-- C1: for a token-poll response with no `error` key, reached on an
unexpired iteration: with `--json` the whole response is printed as
`json.dumps(_, indent=2)` and the run exits 0 (keys and values are
serialized from the response object itself, unchanged); otherwise, a
present non-empty `access_token` string is printed bare with exit 0,
and an absent `access_token` yields an error on stderr and exit 1. -/
theorem c1_success_response_output (te : String)
    (form : List (String × String)) (interval expires_in start now : Int)
    (clock : List Int) (resps : List RawResp) (obj : JsonObj)
    (hne : ¬ now - start ≥ expires_in) (herr : obj.lookup "error" = none) :
    (pollLoop te form true interval expires_in start (now :: clock)
        (.json obj :: resps)
      = ([.request te form, .out (dumps (.obj obj))], .exit 0))
    ∧ (∀ s, obj.lookup "access_token" = some (.str s) → s ≠ "" →
        pollLoop te form false interval expires_in start (now :: clock)
            (.json obj :: resps)
          = ([.request te form, .out s], .exit 0))
    ∧ (obj.lookup "access_token" = none →
        pollLoop te form false interval expires_in start (now :: clock)
            (.json obj :: resps)
          = ([.request te form, .err "No access_token returned"], .exit 1)) :=
  by
  refine ⟨?_, ?_, ?_⟩
  · simp [pollLoop, post_form, hne, herr]
  · intro s hs hne'
    simp [pollLoop, post_form, hne, herr, hs, truthy, pyStr, pyStrVal, hne']
  · intro hat
    simp [pollLoop, post_form, hne, herr, hat, truthy]

/-- C1 at a concrete response `{"access_token": "TOK123"}`, in both
output modes. -/
theorem c1_success_response_output_witness :
    (pollLoop "T" [] true 5 600 0 [1] [.json [("access_token", .str "TOK123")]]
      = ([.request "T" [], .out (dumps (.obj [("access_token", .str "TOK123")]))],
          .exit 0))
    ∧ (pollLoop "T" [] false 5 600 0 [1] [.json [("access_token", .str "TOK123")]]
      = ([.request "T" [], .out "TOK123"], .exit 0)) :=
  ⟨(c1_success_response_output "T" [] 5 600 0 1 [] []
      [("access_token", .str "TOK123")] (by decide) rfl).1,
    (c1_success_response_output "T" [] 5 600 0 1 [] []
      [("access_token", .str "TOK123")] (by decide) rfl).2.1 "TOK123" rfl
      (by decide)⟩

/-! ### C2 -/

/-- C2 fails as stated: after a transient `authorization_pending`
response at time 3 (window 10s), the loop sleeps and then finds the
window elapsed at time 12, so it exits 1 with an expiration report and
never issues another poll — the trace holds exactly one request. -/
theorem c2_transient_counterexample :
    pollLoop "T" [] false 5 10 0 [3, 12]
        [.json [("error", .str "authorization_pending")]]
      = ([.request "T" [], .sleep 5,
          .err "Device code expired. Run the script again."], .exit 1)
    ∧ countRequests (pollLoop "T" [] false 5 10 0 [3, 12]
        [.json [("error", .str "authorization_pending")]]).1 = 1 :=
  ⟨rfl, rfl⟩

/-- C2 amended: on a transient `authorization_pending`/`slow_down`
response the loop adds exactly one `sleep interval` (the initiation
value, unchanged) to the trace and re-enters the loop with the same
interval; the transient branch itself produces no output and no exit
(a later iteration may still exit through the expiry check). -/
theorem c2_transient_retry (te : String) (form : List (String × String))
    (jsonFlag : Bool) (interval expires_in start now : Int)
    (clock : List Int) (resps : List RawResp) (obj : JsonObj)
    (errv : JsonVal) (hne : ¬ now - start ≥ expires_in)
    (herr : obj.lookup "error" = some errv) (ht : isTransient errv = true) :
    pollLoop te form jsonFlag interval expires_in start (now :: clock)
        (.json obj :: resps)
      = (.request te form :: .sleep interval ::
          (pollLoop te form jsonFlag interval expires_in start clock resps).1,
         (pollLoop te form jsonFlag interval expires_in start clock resps).2) :=
  by
  simp [pollLoop, post_form, hne, herr, ht]

/-- C2 (amended) at a concrete `slow_down` response followed by a
successful poll. -/
theorem c2_transient_retry_witness :
    pollLoop "T" [] false 5 600 0 [1, 2]
        [.json [("error", .str "slow_down")],
          .json [("access_token", .str "x")]]
      = (.request "T" [] :: .sleep 5 ::
          (pollLoop "T" [] false 5 600 0 [2]
            [.json [("access_token", .str "x")]]).1,
         (pollLoop "T" [] false 5 600 0 [2]
            [.json [("access_token", .str "x")]]).2) :=
  c2_transient_retry "T" [] false 5 600 0 1 [2]
    [.json [("access_token", .str "x")]] [("error", .str "slow_down")]
    (.str "slow_down") (by decide) rfl rfl

/-- On an unexpired iteration the trace of the iteration starts with
the token request: nothing (in particular no expiry declaration)
happens between the passed check and the request. -/
theorem pollLoop_request_first (te : String) (form : List (String × String))
    (jsonFlag : Bool) (interval expires_in start now : Int)
    (clock : List Int) (resps : List RawResp)
    (hne : ¬ now - start ≥ expires_in) :
    ∃ t o, pollLoop te form jsonFlag interval expires_in start
      (now :: clock) resps = (.request te form :: t, o) := by
  unfold pollLoop
  rw [if_neg hne]
  obtain ⟨t0, r, hpf⟩ := post_form_head te form resps.head?
  simp only [hpf]
  rcases r with out | token_resp
  · exact ⟨t0, out, rfl⟩
  · rcases hl : token_resp.lookup "error" with _ | errv
    · simp only [hl]
      cases jsonFlag
      · cases hat : truthy (token_resp.lookup "access_token")
        · exact ⟨t0 ++ [.err "No access_token returned"], .exit 1,
            by simp [hat]⟩
        · exact ⟨t0 ++ [.out (pyStr (token_resp.lookup "access_token"))],
            .exit 0, by simp [hat]⟩
      · exact ⟨t0 ++ [.out (dumps (.obj token_resp))], .exit 0, by simp⟩
    · simp only [hl]
      cases ht : isTransient errv
      · exact ⟨t0 ++ [.err (pyStr (pyOr (token_resp.lookup "error_description")
          (some errv)))], .exit 1, by simp [ht]⟩
      · exact ⟨t0 ++ .sleep interval ::
          (pollLoop te form jsonFlag interval expires_in start clock
            resps.tail).1,
          (pollLoop te form jsonFlag interval expires_in start clock
            resps.tail).2, by simp [ht]⟩

/-! ### C3 -/

/-- C3: each poll-loop iteration checks elapsed time against
`expires_in` first: when exceeded, the iteration produces only the
expiration message on stderr and exit 1 — no request is issued; when
not exceeded, the iteration's trace begins with the token request, so
expiration is never declared between a request and its response
handling. -/
theorem c3_expiry_check_first (te : String) (form : List (String × String))
    (jsonFlag : Bool) (interval expires_in start now : Int)
    (clock : List Int) (resps : List RawResp) :
    (now - start ≥ expires_in →
      pollLoop te form jsonFlag interval expires_in start (now :: clock) resps
        = ([.err "Device code expired. Run the script again."], .exit 1))
    ∧ (¬ now - start ≥ expires_in →
      ∃ t o, pollLoop te form jsonFlag interval expires_in start
        (now :: clock) resps = (.request te form :: t, o)) := by
  constructor
  · intro h
    simp [pollLoop, h]
  · intro h
    exact pollLoop_request_first te form jsonFlag interval expires_in start
      now clock resps h

/-- C3 at time 10 of a 10-second window (expired: no request) and at
time 3 (not expired: request first). -/
theorem c3_expiry_check_first_witness :
    (pollLoop "T" [] false 5 10 0 [10] []
      = ([.err "Device code expired. Run the script again."], .exit 1))
    ∧ ∃ t o, pollLoop "T" [] false 5 10 0 [3] [] = (.request "T" [] :: t, o) :=
  ⟨(c3_expiry_check_first "T" [] false 5 10 0 10 [] []).1 (by decide),
    (c3_expiry_check_first "T" [] false 5 10 0 3 [] []).2 (by decide)⟩

/-! ### C4 -/

/-- C4 fails as stated: on `{"error": "access_denied",
"error_description": ""}` the `error_description` key is present, yet
the program prints the `error` value (`access_denied`), not the empty
`error_description` — the fallback triggers on a falsy description, not
only on an absent one. -/
theorem c4_empty_description_counterexample :
    pollLoop "T" [] false 5 600 0 [1]
        [.json [("error", .str "access_denied"),
          ("error_description", .str "")]]
      = ([.request "T" [], .err "access_denied"], .exit 1)
    ∧ Event.err "" ∉ (pollLoop "T" [] false 5 600 0 [1]
        [.json [("error", .str "access_denied"),
          ("error_description", .str "")]]).1 :=
  ⟨rfl, by decide⟩

/-- C4 amended: a non-transient `error` at either endpoint prints
`error_description` — falling back to the `error` value when the
description is absent or falsy (e.g. empty or null) — to stderr and
exits 1; at the initiation endpoint the whole trace holds the single
initiation request, so no polling request is ever made. -/
theorem c4_terminal_error :
    (∀ (obj : JsonObj) (errv : JsonVal) (jsonFlag : Bool)
        (rest : List RawResp) (clock : List Int),
      obj.lookup "error" = some errv → isTransient errv = false →
      main ⟨stdEnv, jsonFlag, .json obj :: rest, clock⟩
        = ([.request stdDevEp stdInitForm,
            .err (pyStr (pyOr (obj.lookup "error_description")
              (obj.lookup "error")))], .exit 1))
    ∧ (∀ (te : String) (form : List (String × String)) (jsonFlag : Bool)
        (interval expires_in start now : Int) (clock : List Int)
        (resps : List RawResp) (obj : JsonObj) (errv : JsonVal),
      ¬ now - start ≥ expires_in →
      obj.lookup "error" = some errv → isTransient errv = false →
      pollLoop te form jsonFlag interval expires_in start (now :: clock)
          (.json obj :: resps)
        = ([.request te form,
            .err (pyStr (pyOr (obj.lookup "error_description")
              (some errv)))], .exit 1)) := by
  constructor
  · intro obj errv jsonFlag rest clock herr hnt
    rw [main_stdEnv]
    simp [device_flow, post_form, after_init, herr, stdDevEp, stdInitForm]
  · intro te form jsonFlag interval expires_in start now clock resps obj
      errv hne herr hnt
    simp [pollLoop, post_form, hne, herr, hnt]

/-- C4 (amended) at the initiation endpoint on
`{"error": "invalid_scope", "error_description": "bad scope"}` and at
the token endpoint on `{"error": "access_denied"}`. -/
theorem c4_terminal_error_witness :
    main ⟨stdEnv, false,
        [.json [("error", .str "invalid_scope"),
          ("error_description", .str "bad scope")]], []⟩
      = ([.request stdDevEp stdInitForm,
          .err (pyStr (pyOr
            ([("error", JsonVal.str "invalid_scope"),
              ("error_description", JsonVal.str "bad scope")].lookup
                "error_description")
            ([("error", JsonVal.str "invalid_scope"),
              ("error_description", JsonVal.str "bad scope")].lookup
                "error")))], .exit 1)
    ∧ pollLoop "T" [] false 5 600 0 [1]
        [.json [("error", .str "access_denied")]]
      = ([.request "T" [],
          .err (pyStr (pyOr
            ([("error", JsonVal.str "access_denied")].lookup
              "error_description")
            (some (.str "access_denied"))))], .exit 1) :=
  ⟨c4_terminal_error.1 [("error", .str "invalid_scope"),
      ("error_description", .str "bad scope")] (.str "invalid_scope")
      false [] [] rfl rfl,
    c4_terminal_error.2 "T" [] false 5 600 0 1 [] []
      [("error", .str "access_denied")] (.str "access_denied")
      (by decide) rfl rfl⟩

/-- Evaluation of `require_env` on a missing (absent or empty) variable: message on
stderr, no value. -/
theorem require_env_missing {env : List (String × String)} {name : String}
    (h : envMissing env name) :
    require_env env name = ([.err (name ++ " is required")], none) := by
  rcases h with h | h <;> simp [require_env, h]

/-- Evaluation of `require_env` on a present non-empty variable: silent success. -/
theorem require_env_ok {env : List (String × String)} {name v : String}
    (h : env.lookup name = some v) (hv : v ≠ "") :
    require_env env name = ([], some v) := by
  simp [require_env, h, hv]

/-- A variable that is not missing has a non-empty value. -/
theorem not_envMissing {env : List (String × String)} {name : String}
    (h : ¬ envMissing env name) :
    ∃ v, env.lookup name = some v ∧ v ≠ "" := by
  rcases hl : env.lookup name with _ | v
  · exact absurd (Or.inl hl) h
  · exact ⟨v, rfl, fun he => h (Or.inr (he ▸ hl))⟩

/-- The device flow always records the initiation request first. -/
theorem device_flow_request_first (client_id client_secret scope
    device_endpoint token_endpoint : String) (jsonFlag : Bool)
    (resps : List RawResp) (clock : List Int) :
    ∃ t o, device_flow client_id client_secret scope device_endpoint
        token_endpoint jsonFlag resps clock
      = (.request device_endpoint
          [("client_id", client_id), ("client_secret", client_secret),
            ("scope", scope)] :: t, o) := by
  unfold device_flow
  obtain ⟨t0, r, hpf⟩ := post_form_head device_endpoint
    [("client_id", client_id), ("client_secret", client_secret),
      ("scope", scope)] resps.head?
  simp only [hpf]
  rcases r with out | init_resp
  · exact ⟨t0, out, rfl⟩
  · exact ⟨t0 ++ (after_init client_id client_secret token_endpoint jsonFlag
      init_resp resps.tail clock).1,
      (after_init client_id client_secret token_endpoint jsonFlag init_resp
        resps.tail clock).2, by simp⟩

/-! ### C5 -/

/-- C5: when any of the four required environment variables is absent
or empty, the program prints `NAME is required` (for the first such
variable in checking order) to stderr and exits 1, with a trace that
holds no request at all; when all four are present and non-empty and
`SCOPE` is unset, the initiation request is sent with the scope
defaulted to `openid email profile groups`. -/
theorem c5_env_validation (env : List (String × String)) (jsonFlag : Bool)
    (resps : List RawResp) (clock : List Int) :
    ((∃ name ∈ requiredVars, envMissing env name) →
      ∃ name ∈ requiredVars, envMissing env name ∧
        main ⟨env, jsonFlag, resps, clock⟩
          = ([.err (name ++ " is required")], .exit 1))
    ∧ (∀ u r ci cs, env.lookup "KEYCLOAK_URL" = some u → u ≠ "" →
        env.lookup "REALM" = some r → r ≠ "" →
        env.lookup "CLIENT_ID" = some ci → ci ≠ "" →
        env.lookup "CLIENT_SECRET" = some cs → cs ≠ "" →
        env.lookup "SCOPE" = none →
        ∃ t o, main ⟨env, jsonFlag, resps, clock⟩
          = (.request (device_endpoint_of u r)
              [("client_id", ci), ("client_secret", cs),
                ("scope", "openid email profile groups")] :: t, o)) := by
  constructor
  · intro hex
    by_cases h1 : envMissing env "KEYCLOAK_URL"
    · refine ⟨"KEYCLOAK_URL", by simp [requiredVars], h1, ?_⟩
      unfold main
      rw [require_env_missing h1]
    · obtain ⟨v1, hv1, hv1e⟩ := not_envMissing h1
      by_cases h2 : envMissing env "REALM"
      · refine ⟨"REALM", by simp [requiredVars], h2, ?_⟩
        unfold main
        rw [require_env_ok hv1 hv1e, require_env_missing h2]
      · obtain ⟨v2, hv2, hv2e⟩ := not_envMissing h2
        by_cases h3 : envMissing env "CLIENT_ID"
        · refine ⟨"CLIENT_ID", by simp [requiredVars], h3, ?_⟩
          unfold main
          rw [require_env_ok hv1 hv1e, require_env_ok hv2 hv2e,
            require_env_missing h3]
        · obtain ⟨v3, hv3, hv3e⟩ := not_envMissing h3
          by_cases h4 : envMissing env "CLIENT_SECRET"
          · refine ⟨"CLIENT_SECRET", by simp [requiredVars], h4, ?_⟩
            unfold main
            rw [require_env_ok hv1 hv1e, require_env_ok hv2 hv2e,
              require_env_ok hv3 hv3e, require_env_missing h4]
          · exfalso
            obtain ⟨name, hmem, hmiss⟩ := hex
            simp only [requiredVars, List.mem_cons, List.mem_singleton,
              List.not_mem_nil, or_false] at hmem
            rcases hmem with rfl | rfl | rfl | rfl
            · exact h1 hmiss
            · exact h2 hmiss
            · exact h3 hmiss
            · exact h4 hmiss
  · intro u r ci cs hu hue hr hre hci hcie hcs hcse hscope
    unfold main
    rw [require_env_ok hu hue, require_env_ok hr hre,
      require_env_ok hci hcie, require_env_ok hcs hcse]
    simp only [hscope, Option.getD_none]
    exact device_flow_request_first ci cs "openid email profile groups"
      (device_endpoint_of u r) (token_endpoint_of u r) jsonFlag resps clock

/-- C5 at a concrete environment missing `CLIENT_SECRET` and at
`stdEnv` (all present, `SCOPE` unset). -/
theorem c5_env_validation_witness :
    (∃ name ∈ requiredVars,
      envMissing [("KEYCLOAK_URL", "https://kc.example"),
        ("REALM", "master"), ("CLIENT_ID", "cli")] name ∧
      main ⟨[("KEYCLOAK_URL", "https://kc.example"), ("REALM", "master"),
          ("CLIENT_ID", "cli")], false, [], []⟩
        = ([.err (name ++ " is required")], .exit 1))
    ∧ ∃ t o, main ⟨stdEnv, false, [], []⟩
        = (.request (device_endpoint_of "https://kc.example" "master")
            [("client_id", "cli"), ("client_secret", "sec"),
              ("scope", "openid email profile groups")] :: t, o) :=
  ⟨(c5_env_validation [("KEYCLOAK_URL", "https://kc.example"),
        ("REALM", "master"), ("CLIENT_ID", "cli")] false [] []).1
      ⟨"CLIENT_SECRET", by simp [requiredVars], Or.inl rfl⟩,
    (c5_env_validation stdEnv false [] []).2 "https://kc.example" "master"
      "cli" "sec" rfl (by decide) rfl (by decide) rfl (by decide) rfl
      (by decide) rfl⟩

/-! ### C6 -/

/-- C6 fails as stated: an initiation response `{"interval": null}`
has no `error` key and lacks `device_code`, yet the program crashes
with an uncaught `TypeError` at `int(init_resp.get("interval", 5))` —
executed before the completeness check — so the diagnostic and the JSON
dump are never printed. -/
theorem c6_unconvertible_interval_counterexample :
    main ⟨stdEnv, false, [.json [("interval", JsonVal.null)]], []⟩
      = ([.request stdDevEp stdInitForm], .crash)
    ∧ Event.err "Missing device_code/user_code/verification_uri"
        ∉ (main ⟨stdEnv, false, [.json [("interval", JsonVal.null)]], []⟩).1 :=
  ⟨rfl, by decide⟩

/-- C6 amended: provided any present `interval`/`expires_in` values
are `int()`-convertible (otherwise the program crashes with an uncaught
exception before reaching the check), an initiation response without an
`error` key that lacks `device_code`, `user_code`, or both variants of
the verification URI makes the program print the diagnostic to stderr
plus the full JSON response to stdout and exit 1, without entering the
poll loop. -/
theorem c6_incomplete_init (obj : JsonObj) (jsonFlag : Bool)
    (rest : List RawResp) (clock : List Int) (n m : Int)
    (herr : obj.lookup "error" = none)
    (hint : pyIntD (obj.lookup "interval") 5 = some n)
    (hexp : pyIntD (obj.lookup "expires_in") 600 = some m)
    (hmiss : obj.lookup "device_code" = none ∨
      obj.lookup "user_code" = none ∨
      (obj.lookup "verification_uri" = none ∧
        obj.lookup "verification_uri_complete" = none)) :
    main ⟨stdEnv, jsonFlag, .json obj :: rest, clock⟩
      = ([.request stdDevEp stdInitForm,
          .err "Missing device_code/user_code/verification_uri",
          .out (dumps (.obj obj))], .exit 1) := by
  rcases hmiss with h | h | ⟨h1, h2⟩
  · rw [main_stdEnv]
    simp [device_flow, post_form, after_init, herr, hint, hexp,
      stdDevEp, stdInitForm, h, truthy]
  · rw [main_stdEnv]
    simp [device_flow, post_form, after_init, herr, hint, hexp,
      stdDevEp, stdInitForm, h, truthy]
  · rw [main_stdEnv]
    simp [device_flow, post_form, after_init, herr, hint, hexp,
      stdDevEp, stdInitForm, h1, h2, truthy, pyOr]

/-- C6 (amended) at `{"user_code": "AB", "verification_uri": "v"}`
(missing `device_code`, defaults for the integers). -/
theorem c6_incomplete_init_witness :
    main ⟨stdEnv, false,
        [.json [("user_code", .str "AB"), ("verification_uri", .str "v")]],
        []⟩
      = ([.request stdDevEp stdInitForm,
          .err "Missing device_code/user_code/verification_uri",
          .out (dumps (.obj [("user_code", .str "AB"),
            ("verification_uri", .str "v")]))], .exit 1) :=
  c6_incomplete_init [("user_code", .str "AB"),
      ("verification_uri", .str "v")] false [] [] 5 600 rfl rfl rfl
    (Or.inl rfl)

/-- A complete initiation response under `stdEnv` leads, after the
operator instructions and acknowledgement prompt, to the poll loop run
with the extracted `interval` and `expires_in`. -/
theorem main_poll_decomposition (obj : JsonObj) (jsonFlag : Bool)
    (rest : List RawResp) (start : Int) (clock : List Int) (n m : Int)
    (herr : obj.lookup "error" = none)
    (hint : pyIntD (obj.lookup "interval") 5 = some n)
    (hexp : pyIntD (obj.lookup "expires_in") 600 = some m)
    (hdc : truthy (obj.lookup "device_code") = true)
    (huc : truthy (obj.lookup "user_code") = true)
    (hvu : truthy (pyOr (obj.lookup "verification_uri")
      (obj.lookup "verification_uri_complete")) = true) :
    main ⟨stdEnv, jsonFlag, .json obj :: rest, start :: clock⟩
      = (.request stdDevEp stdInitForm
          :: .out "\nOpen the following URL and enter the code:"
          :: .out ("  " ++ pyStr (pyOr (obj.lookup "verification_uri")
              (obj.lookup "verification_uri_complete")))
          :: .out "Code:"
          :: .out ("  " ++ pyStr (obj.lookup "user_code"))
          :: .out ("\nDevice code expires in " ++ toString m ++ "s")
          :: .input "\nPress ENTER after completing login in the browser..."
          :: (pollLoop stdTokEp (stdPollForm obj) jsonFlag n m start
              clock rest).1,
        (pollLoop stdTokEp (stdPollForm obj) jsonFlag n m start
          clock rest).2) := by
  rw [main_stdEnv]
  simp [device_flow, post_form, after_init, herr, hint, hexp, hdc, huc,
    hvu, stdDevEp, stdTokEp, stdInitForm, stdPollForm]

/-! ### C7 -/

/-- C7: on a complete initiation response, when `interval` and
`expires_in` are omitted the poll loop runs with 5 and 600 (and the
operator message announces 600s); when the server supplies them, their
`int()`-converted values are used instead. -/
theorem c7_interval_expires_defaults (obj : JsonObj) (jsonFlag : Bool)
    (rest : List RawResp) (start : Int) (clock : List Int)
    (herr : obj.lookup "error" = none)
    (hdc : truthy (obj.lookup "device_code") = true)
    (huc : truthy (obj.lookup "user_code") = true)
    (hvu : truthy (pyOr (obj.lookup "verification_uri")
      (obj.lookup "verification_uri_complete")) = true) :
    (obj.lookup "interval" = none → obj.lookup "expires_in" = none →
      main ⟨stdEnv, jsonFlag, .json obj :: rest, start :: clock⟩
        = (.request stdDevEp stdInitForm
            :: .out "\nOpen the following URL and enter the code:"
            :: .out ("  " ++ pyStr (pyOr (obj.lookup "verification_uri")
                (obj.lookup "verification_uri_complete")))
            :: .out "Code:"
            :: .out ("  " ++ pyStr (obj.lookup "user_code"))
            :: .out "\nDevice code expires in 600s"
            :: .input "\nPress ENTER after completing login in the browser..."
            :: (pollLoop stdTokEp (stdPollForm obj) jsonFlag 5 600 start
                clock rest).1,
          (pollLoop stdTokEp (stdPollForm obj) jsonFlag 5 600 start
            clock rest).2))
    ∧ (∀ iv ev n m, obj.lookup "interval" = some iv → pyInt iv = some n →
        obj.lookup "expires_in" = some ev → pyInt ev = some m →
        main ⟨stdEnv, jsonFlag, .json obj :: rest, start :: clock⟩
          = (.request stdDevEp stdInitForm
              :: .out "\nOpen the following URL and enter the code:"
              :: .out ("  " ++ pyStr (pyOr (obj.lookup "verification_uri")
                  (obj.lookup "verification_uri_complete")))
              :: .out "Code:"
              :: .out ("  " ++ pyStr (obj.lookup "user_code"))
              :: .out ("\nDevice code expires in " ++ toString m ++ "s")
              :: .input
                "\nPress ENTER after completing login in the browser..."
              :: (pollLoop stdTokEp (stdPollForm obj) jsonFlag n m start
                  clock rest).1,
            (pollLoop stdTokEp (stdPollForm obj) jsonFlag n m start
              clock rest).2)) := by
  constructor
  · intro hi he
    exact main_poll_decomposition obj jsonFlag rest start clock 5 600 herr
      (by simp [pyIntD, hi]) (by simp [pyIntD, he]) hdc huc hvu
  · intro iv ev n m hi hn he hm
    exact main_poll_decomposition obj jsonFlag rest start clock n m herr
      (by simp [pyIntD, hi, hn]) (by simp [pyIntD, he, hm]) hdc huc hvu

/-- C7 at two concrete initiation responses: one omitting both timing
fields (defaults 5/600) and one supplying `interval: 7`,
`expires_in: 120`. -/
theorem c7_interval_expires_defaults_witness :
    (main ⟨stdEnv, false,
        [.json [("device_code", .str "D1"), ("user_code", .str "AB"),
          ("verification_uri", .str "V")]], [0]⟩
      = (.request stdDevEp stdInitForm
          :: .out "\nOpen the following URL and enter the code:"
          :: .out "  V"
          :: .out "Code:"
          :: .out "  AB"
          :: .out "\nDevice code expires in 600s"
          :: .input "\nPress ENTER after completing login in the browser..."
          :: (pollLoop stdTokEp
              (stdPollForm [("device_code", .str "D1"),
                ("user_code", .str "AB"), ("verification_uri", .str "V")])
              false 5 600 0 [] []).1,
        (pollLoop stdTokEp
          (stdPollForm [("device_code", .str "D1"),
            ("user_code", .str "AB"), ("verification_uri", .str "V")])
          false 5 600 0 [] []).2))
    ∧ (main ⟨stdEnv, false,
        [.json [("device_code", .str "D1"), ("user_code", .str "AB"),
          ("verification_uri", .str "V"), ("interval", .num 7),
          ("expires_in", .num 120)]], [0]⟩
      = (.request stdDevEp stdInitForm
          :: .out "\nOpen the following URL and enter the code:"
          :: .out "  V"
          :: .out "Code:"
          :: .out "  AB"
          :: .out "\nDevice code expires in 120s"
          :: .input "\nPress ENTER after completing login in the browser..."
          :: (pollLoop stdTokEp
              (stdPollForm [("device_code", .str "D1"),
                ("user_code", .str "AB"), ("verification_uri", .str "V"),
                ("interval", .num 7), ("expires_in", .num 120)])
              false 7 120 0 [] []).1,
        (pollLoop stdTokEp
          (stdPollForm [("device_code", .str "D1"),
            ("user_code", .str "AB"), ("verification_uri", .str "V"),
            ("interval", .num 7), ("expires_in", .num 120)])
          false 7 120 0 [] []).2)) :=
  ⟨(c7_interval_expires_defaults [("device_code", .str "D1"),
        ("user_code", .str "AB"), ("verification_uri", .str "V")]
      false [] 0 [] rfl (by decide) (by decide) (by decide)).1 rfl rfl,
    (c7_interval_expires_defaults [("device_code", .str "D1"),
        ("user_code", .str "AB"), ("verification_uri", .str "V"),
        ("interval", .num 7), ("expires_in", .num 120)]
      false [] 0 [] rfl (by decide) (by decide) (by decide)).2
      (.num 7) (.num 120) 7 120 rfl rfl rfl rfl⟩

/-- Taking the leading slashes of a list yields a run of slashes. -/
theorem takeWhile_slash_replicate (l : List Char) :
    l.takeWhile (fun c => c = '/')
      = List.replicate (l.takeWhile (fun c => c = '/')).length '/' :=
  List.eq_replicate_iff.mpr ⟨rfl, fun _ hb => by
    simpa using List.mem_takeWhile_imp hb⟩

/-- A non-empty `dropWhile p` result starts with an element violating
`p`. -/
theorem dropWhile_head_not {α : Type} (p : α → Bool) (l : List α) :
    ∀ a, (l.dropWhile p).head? = some a → p a = false := by
  induction l with
  | nil => intro a h; simp [List.dropWhile] at h
  | cons b t ih =>
    intro a h
    by_cases hb : p b
    · rw [List.dropWhile_cons, if_pos hb] at h
      exact ih a h
    · rw [List.dropWhile_cons, if_neg hb] at h
      simp only [List.head?_cons, Option.some.injEq] at h
      subst h
      exact Bool.eq_false_iff.mpr hb

/-! ### C8 -/

/-- C8: for any `KEYCLOAK_URL` and `REALM`, the base decomposes as a
prefix `b` (which does not end in `/`) followed by the maximal run of
trailing slashes, and the two endpoints are exactly `b` followed by
`/realms/{realm}/protocol/openid-connect/auth/device` resp.
`.../token`. -/
theorem c8_endpoint_urls (url realm : String) :
    ∃ b k, url = b ++ String.mk (List.replicate k '/')
      ∧ b.data.getLast? ≠ some '/'
      ∧ device_endpoint_of url realm
        = b ++ "/realms/" ++ realm ++ "/protocol/openid-connect/auth/device"
      ∧ token_endpoint_of url realm
        = b ++ "/realms/" ++ realm ++ "/protocol/openid-connect/token" := by
  refine ⟨rstripSlash url,
    (url.data.reverse.takeWhile (fun c => c = '/')).length, ?_, ?_, rfl, rfl⟩
  · apply String.ext
    show url.data
      = (url.data.reverse.dropWhile (fun c => c = '/')).reverse
        ++ List.replicate
          (url.data.reverse.takeWhile (fun c => c = '/')).length '/'
    conv_lhs => rw [← List.reverse_reverse url.data,
      ← List.takeWhile_append_dropWhile (fun c => c = '/')
        url.data.reverse]
    rw [List.reverse_append]
    congr 1
    rw [takeWhile_slash_replicate, List.reverse_replicate,
      List.length_replicate]
  · intro hlast
    have : (url.data.reverse.dropWhile (fun c => c = '/')).head?
        = some '/' := by
      rw [← List.getLast?_reverse]
      exact hlast
    have := dropWhile_head_not (fun c => c = '/')
      url.data.reverse '/' this
    simp at this

/-- C8 at the concrete base URL `https://kc.example//` and realm
`master`. -/
theorem c8_endpoint_urls_witness :
    ∃ b k, "https://kc.example//" = b ++ String.mk (List.replicate k '/')
      ∧ b.data.getLast? ≠ some '/'
      ∧ device_endpoint_of "https://kc.example//" "master"
        = b ++ "/realms/" ++ "master"
          ++ "/protocol/openid-connect/auth/device"
      ∧ token_endpoint_of "https://kc.example//" "master"
        = b ++ "/realms/" ++ "master" ++ "/protocol/openid-connect/token" :=
  c8_endpoint_urls "https://kc.example//" "master"

/-! ### C9 -/

/-- C9: a non-JSON response body makes `post_form` print
`Non-JSON response:` and the raw body to stdout and exit 1 instead of
returning a parsed object; through both call sites — the initiation
POST and a poll-loop token POST — the process exits 1 with exactly that
output after the request. -/
theorem c9_non_json_fatal :
    (∀ (url : String) (data : List (String × String)) (raw : String),
      post_form url data (some (.nonJson raw))
        = ([.request url data, .out "Non-JSON response:", .out raw],
            .error (.exit 1)))
    ∧ (∀ (jsonFlag : Bool) (raw : String) (rest : List RawResp)
        (clock : List Int),
      main ⟨stdEnv, jsonFlag, .nonJson raw :: rest, clock⟩
        = ([.request stdDevEp stdInitForm, .out "Non-JSON response:",
            .out raw], .exit 1))
    ∧ (∀ (te : String) (form : List (String × String)) (jsonFlag : Bool)
        (interval expires_in start now : Int) (clock : List Int)
        (raw : String) (rest : List RawResp),
      ¬ now - start ≥ expires_in →
      pollLoop te form jsonFlag interval expires_in start (now :: clock)
          (.nonJson raw :: rest)
        = ([.request te form, .out "Non-JSON response:", .out raw],
            .exit 1)) := by
  refine ⟨fun url data raw => rfl, ?_, ?_⟩
  · intro jsonFlag raw rest clock
    rw [main_stdEnv]
    simp [device_flow, post_form, stdDevEp, stdInitForm]
  · intro te form jsonFlag interval expires_in start now clock raw rest hne
    simp [pollLoop, post_form, hne]

/-- C9 at a concrete HTML error page body, at both endpoints. -/
theorem c9_non_json_fatal_witness :
    (main ⟨stdEnv, false, [.nonJson "<html>503</html>"], []⟩
      = ([.request stdDevEp stdInitForm, .out "Non-JSON response:",
          .out "<html>503</html>"], .exit 1))
    ∧ (pollLoop "T" [] false 5 600 0 [1] [.nonJson "<html>503</html>"]
      = ([.request "T" [], .out "Non-JSON response:",
          .out "<html>503</html>"], .exit 1)) :=
  ⟨c9_non_json_fatal.2.1 false "<html>503</html>" [] [],
    c9_non_json_fatal.2.2 "T" [] false 5 600 0 1 [] "<html>503</html>" []
      (by decide)⟩

/-! ### C10 -/

/-- C10: a token-poll response without `error` and without
`access_token` is still printed with exit 0 under `--json`; only the
bare-token mode reports the missing `access_token` and exits 1. -/
theorem c10_json_mode_skips_token_check (te : String)
    (form : List (String × String)) (interval expires_in start now : Int)
    (clock : List Int) (resps : List RawResp) (obj : JsonObj)
    (hne : ¬ now - start ≥ expires_in) (herr : obj.lookup "error" = none)
    (hat : obj.lookup "access_token" = none) :
    (pollLoop te form true interval expires_in start (now :: clock)
        (.json obj :: resps)
      = ([.request te form, .out (dumps (.obj obj))], .exit 0))
    ∧ (pollLoop te form false interval expires_in start (now :: clock)
        (.json obj :: resps)
      = ([.request te form, .err "No access_token returned"], .exit 1)) := by
  constructor
  · simp [pollLoop, post_form, hne, herr]
  · simp [pollLoop, post_form, hne, herr, hat, truthy]

/-- C10 at the concrete response `{"token_type": "Bearer"}`. -/
theorem c10_json_mode_skips_token_check_witness :
    (pollLoop "T" [] true 5 600 0 [1]
        [.json [("token_type", .str "Bearer")]]
      = ([.request "T" [],
          .out (dumps (.obj [("token_type", .str "Bearer")]))], .exit 0))
    ∧ (pollLoop "T" [] false 5 600 0 [1]
        [.json [("token_type", .str "Bearer")]]
      = ([.request "T" [], .err "No access_token returned"], .exit 1)) :=
  c10_json_mode_skips_token_check "T" [] 5 600 0 1 [] []
    [("token_type", .str "Bearer")] (by decide) rfl rfl

end DeviceToken
